import Mathlib

/-!
Verification of the pelorus declarative environment-configuration loader.

The repository contains several drafts of the same subsystem.  This file embeds
the drafts that the specification's claims cite:

- `src/exporters/pelorus/config/loading/env.py` (attrs draft):
  `field_env_lookups`, `EnvironmentConfigLoader._all_matches`,
  `EnvironmentConfigLoader._load_field`, `EnvironmentConfigLoader.construct`;
- `src/exporters/pelorus/config/loading/errors.py`: the missing-data error
  taxonomy and the aggregate `MissingConfigDataError`;
- `src/exporters/pelorus/config/loading.py` (dataclass draft):
  `_get_env_var`, `transform_value`, `load`;
- `src/exporters/pelorus/config/converters.py`: `_comma_separated_collection`;
- `src/exporters/pelorus/config/logging.py`: `_should_be_logged`, `format_values`;
- `src/exporters/pelorus/config/_class_setup.py`: `_set_up_converter`, the
  class-declaration-time hook;
- `src/exporters/pelorus/config/next.py`: `EnvFinder.get_value`'s env-lookup
  selection.

Environments and dictionaries are embedded as association lists where lookup
finds the first binding (Python dict keys are unique, so this is faithful).
The configured default keyword (`_DEFAULT_KEYWORD`, ambient in the source) is
passed as an explicit `kw` parameter.
-/

namespace Pelorus

/-! ### Python string primitives

The Python `str` methods the config system uses (`upper`, `lower`,
`startswith`, `split`, `strip`, substring `in`) are embedded as structural
recursions over the character list of the string, so that every definition
evaluates by kernel reduction. -/

/-- Python `str.upper` (the names involved are ASCII). -/
def pyUpper (s : String) : String :=
  String.mk (s.data.map Char.toUpper)

/-- Python `str.lower`. -/
def pyLower (s : String) : String :=
  String.mk (s.data.map Char.toLower)

/-- Python `str.startswith`. -/
def pyStartsWith (s pre : String) : Bool :=
  pre.data.isPrefixOf s.data

/-- Python `str.split(sep)` for a single-character separator: keeps empty
parts, and the empty string yields one empty part. -/
def splitChars (sep : Char) : List Char → List (List Char)
  | [] => [[]]
  | c :: rest =>
    match splitChars sep rest with
    | [] => if c = sep then [[], []] else [[c]]
    | p :: ps => if c = sep then [] :: p :: ps else (c :: p) :: ps

/-- Python `str.strip()`: drop leading and trailing whitespace. -/
def stripChars (l : List Char) : List Char :=
  ((l.dropWhile Char.isWhitespace).reverse.dropWhile Char.isWhitespace).reverse

/-- Python `str.strip()` on strings. -/
def pyStrip (s : String) : String :=
  String.mk (stripChars s.data)

/-- Python `"," .split` of a string, as strings. -/
def pySplitComma (s : String) : List String :=
  (splitChars ',' s.data).map String.mk

/-- Whether `w` occurs as a contiguous sublist of `s`. -/
def subOccurs (w : List Char) : List Char → Bool
  | [] => w.isEmpty
  | c :: rest => w.isPrefixOf (c :: rest) || subOccurs w rest

/-- Python substring containment `w in s`. -/
def pyContains (s w : String) : Bool :=
  subOccurs w.data s.data

/-- An environment snapshot or string-valued dict: key to string mapping. -/
def Env := List (String × String)

/-- Dictionary lookup: first binding of the key, if any. -/
def alookup {α : Type} (m : List (String × α)) (k : String) : Option α :=
  (m.find? (fun p => p.1 == k)).map (fun p => p.2)

/-- Runtime values a configuration field can hold: strings from the
environment, results of the registered converters (int, list, set, tuple of
str), Python `None`, and opaque externally supplied objects (e.g. an API
client passed through the `other` dict). -/
inductive Value where
  | str (s : String)
  | int (n : Int)
  | listOfStr (l : List String)
  | setOfStr (s : Finset String)
  | tupleOfStr (l : List String)
  | pynone
  | obj (tag : String)
  deriving DecidableEq

/-- Declared field types the config system distinguishes
(`str`, `bool`, `int`, `Optional[str]`, `list[str]`, `set[str]`, `tuple[str]`,
or any other class, named by its identifier). -/
inductive CType where
  | strT
  | boolT
  | intT
  | optStrT
  | listStrT
  | setStrT
  | tupleStrT
  | otherT (n : String)
  deriving DecidableEq

/-- Registered default converters (`converters._TYPE_TO_DEFAULT_CONVERTER`)
plus explicitly supplied per-field converters (`custom`). -/
inductive Conv where
  | toIntConv
  | commaList
  | commaSet
  | commaTuple
  | custom (tag : String)
  deriving DecidableEq

/-- A declared configuration field, as both the `attrs.Attribute` and the
`dataclasses.Field` drafts see it.

`envMeta` embeds the `__pelorus_config_env_lookups` metadata entry:
`none` means the key is absent from the metadata dict (`MISSING`/not declared),
`some none` means it was declared as Python `None`,
`some (some l)` means it was declared as the list `l`.

`logMeta` embeds the `__pelorus_config_log` metadata entry the same way
(`none` absent, `some none` declared `None`, `some (some b)` declared a bool).

`default` is `none` when the field has no default (`NOTHING`/`MISSING`);
`defaultFactory` models `dataclasses` `default_factory` by the value it
produces (only the dataclass draft distinguishes it from `default`). -/
structure Attr where
  name : String
  type : CType := CType.strT
  envMeta : Option (Option (List String)) := Option.none
  logMeta : Option (Option Bool) := Option.none
  default : Option Value := Option.none
  defaultFactory : Option Value := Option.none
  converter : Option Conv := Option.none
  deriving DecidableEq

/-- Per-field resolution failures
(`loading/errors.py`: `MissingVariable`, `MissingDefault`, `MissingOther`). -/
inductive MissingErr where
  | missingVariable (name : String) (env_lookups : List String)
  | missingDefault (name : String) (var_containing_default : String)
  | missingOther (name : String)
  deriving DecidableEq

/-- The per-error human-readable messages, embedding each error class's
Python `__str__` (`loading/errors.py`).  `kw` is the ambient
`_DEFAULT_KEYWORD` the `MissingDefault` message interpolates. -/
def missingMessage (kw : String) : MissingErr → String
  | MissingErr.missingVariable name lookups =>
    match lookups with
    | [l] => name ++ " was not found in env var " ++ l
    | _ => name ++ " was not found in any of " ++ String.intercalate "," lookups
  | MissingErr.missingDefault name var =>
    name ++ " was set to " ++ kw ++ " in env var " ++ var ++
      " but there was no default set"
  | MissingErr.missingOther name =>
    name ++ " had environment lookups disabled, but was not passed in to " ++
      "\x60load\x60\x27s \x60other\x60 dict."

/-- The aggregate error (`MissingConfigDataError`): the config class name and
the collected per-field failures. -/
structure MissingCfgErr where
  config_class : String
  missing : List MissingErr
  deriving DecidableEq

/-- The aggregate error's `__str__`. -/
def missingConfigMessage (kw : String) (e : MissingCfgErr) : String :=
  "Config for " ++ e.config_class ++ " is missing data: " ++
    String.intercalate "\n" (e.missing.map (missingMessage kw))

/-- Embeds `loading/env.py` `field_env_lookups`: metadata key absent defaults
to the field name uppercased; declared `None` yields the empty sequence;
a declared list is returned as-is (including the empty list). -/
def field_env_lookups (f : Attr) : List String :=
  match f.envMeta with
  | Option.none => [pyUpper f.name]
  | some Option.none => []
  | some (some l) => l

/-- Embeds `EnvironmentConfigLoader._all_matches`: all name-value pairs of the
lookup list present in the environment, in lookup order (presence is key
membership, not value truthiness). -/
def _all_matches (env : Env) (lookups : List String) : List (String × String) :=
  lookups.filterMap (fun n => (alookup env n).map (fun v => (n, v)))

/-- Source description used when the default applies because no lookup
name was set (`_load_field`, final branch). -/
def defaultUnsetSource (lookups : List String) : String :=
  match lookups with
  | [l] => "default value; " ++ l ++ " was not set"
  | _ => "default value; none of " ++ String.intercalate ", " lookups ++ " were set"

/-- Embeds `EnvironmentConfigLoader._load_field`.  Returns the pair
(value, source-description); either component may be `NOTHING` (here `none`):
the value when the attrs default should apply, the source when the value came
from `other`.  Raising a `MissingDataError` is the `Except.error` case.
The source's for loop returns or raises on its first iteration, so only the
head of `_all_matches` is consulted. -/
def _load_field (kw : String) (env : Env) (other : List (String × Value))
    (f : Attr) : Except MissingErr (Option Value × Option String) :=
  let env_lookups := field_env_lookups f
  if env_lookups.isEmpty then
    match alookup other f.name with
    | some v => Except.ok (some v, Option.none)
    | Option.none => Except.error (MissingErr.missingOther f.name)
  else
    match (_all_matches env env_lookups).head? with
    | some (env_name, env_value) =>
      if env_value = kw then
        if f.default.isNone then
          Except.error (MissingErr.missingDefault f.name env_name)
        else
          Except.ok (Option.none,
            some ("default value (" ++ env_name ++ " set to " ++ env_value ++ ")"))
      else
        Except.ok (some (Value.str env_value), some ("from env var " ++ env_name))
    | Option.none =>
      if f.default.isNone then
        Except.error (MissingErr.missingVariable f.name env_lookups)
      else
        Except.ok (Option.none, some (defaultUnsetSource env_lookups))

/-- The loader's mutable state during `construct`: the `kwargs` and
`__value_sources` NothingDicts (entries only for non-`NOTHING` components)
and the collected failures. -/
structure LoaderState where
  kwargs : List (String × Value)
  value_sources : List (String × String)
  missing : List MissingErr
  deriving DecidableEq

/-- A constructed configuration instance: per-field values (the kwarg if one
was passed, else the attrs default) and the attached `__value_sources` map. -/
structure BInstance where
  values : List (String × Option Value)
  value_sources : List (String × String)
  deriving DecidableEq

/-- The field loop of `EnvironmentConfigLoader.construct`: try each field,
record value and source, collect failures. -/
def construct_go (kw : String) (env : Env) (other : List (String × Value)) :
    List Attr → LoaderState → LoaderState
  | [], st => st
  | f :: rest, st =>
    match _load_field kw env other f with
    | Except.ok (v, s) =>
      construct_go kw env other rest
        { st with
          kwargs := st.kwargs ++ (match v with
            | some v0 => [(f.name, v0)]
            | Option.none => []),
          value_sources := st.value_sources ++ (match s with
            | some s0 => [(f.name, s0)]
            | Option.none => []) }
    | Except.error e =>
      construct_go kw env other rest { st with missing := st.missing ++ [e] }

/-- Embeds `EnvironmentConfigLoader.construct`: loop all fields, then raise
the single aggregate error if anything is missing, otherwise build the
instance (attrs fills the default for every field whose kwarg is absent) and
attach the value sources. -/
def construct (cls_name kw : String) (env : Env) (other : List (String × Value))
    (fs : List Attr) : Except MissingCfgErr BInstance :=
  let st := construct_go kw env other fs ⟨[], [], []⟩
  if st.missing = [] then
    Except.ok
      ⟨fs.map (fun f => (f.name, (alookup st.kwargs f.name).orElse (fun _ => f.default))),
        st.value_sources⟩
  else
    Except.error ⟨cls_name, st.missing⟩

/-- The per-field failures of a whole schema, in field order: the specification
of what `construct` must collect. -/
def loadErrors (kw : String) (env : Env) (other : List (String × Value))
    (fs : List Attr) : List MissingErr :=
  fs.filterMap (fun f =>
    match _load_field kw env other f with
    | Except.error e => some e
    | Except.ok _ => Option.none)

/-- Embeds `converters._comma_separated_collection`'s string path: split the
raw value on a comma and strip surrounding whitespace from each part.
Python's `"".split(",")` is `[""]`, and so is Lean's `"".splitOn ","`. -/
def comma_separated_parts (val : String) : List String :=
  (pySplitComma val).map pyStrip

/-- The comma-separated converter instantiated at `set` (Python builds the
set from the parts, collapsing duplicates and forgetting order). -/
def comma_separated_set (val : String) : Finset String :=
  (comma_separated_parts val).toFinset

/-- The comma-separated converter instantiated at `list`. -/
def comma_separated_list (val : String) : List String :=
  comma_separated_parts val

/-- The comma-separated converter instantiated at `tuple`. -/
def comma_separated_tuple (val : String) : List String :=
  comma_separated_parts val

/-- Embeds `distutils.util.strtobool` (used by the dataclass draft for bool
fields): lowercase, then a strict table; returns a Python int.  The error
message detail is not claimed, so it is kept simple here. -/
def strtobool (val : String) : Except String Int :=
  let v := pyLower val
  if v = "y" ∨ v = "yes" ∨ v = "t" ∨ v = "true" ∨ v = "on" ∨ v = "1" then
    Except.ok 1
  else if v = "n" ∨ v = "no" ∨ v = "f" ∨ v = "false" ∨ v = "off" ∨ v = "0" then
    Except.ok 0
  else
    Except.error ("invalid truth value " ++ val)

/-- Printable name of a declared type, for error messages. -/
def ctypeName : CType → String
  | CType.strT => "str"
  | CType.boolT => "bool"
  | CType.intT => "int"
  | CType.optStrT => "Optional[str]"
  | CType.listStrT => "list[str]"
  | CType.setStrT => "set[str]"
  | CType.tupleStrT => "tuple[str]"
  | CType.otherT n => n

/-- Python `typing.get_origin(t) is not None`: whether the declared type is a
parametrized generic.  Of the types reaching the generic branch of
`transform_value`, only the three container aliases qualify (`Optional[str]`
is consumed by the earlier `Union` branch; `int` and plain classes have no
origin). -/
def hasGenericOrigin : CType → Bool
  | CType.listStrT => true
  | CType.setStrT => true
  | CType.tupleStrT => true
  | _ => false

/-- Python `issubclass(get_origin(t), collections.abc.Collection)`: the
builtin `list`, `set` and `tuple` are `Collection` subclasses. -/
def originIsCollection : CType → Bool
  | CType.listStrT => true
  | CType.setStrT => true
  | CType.tupleStrT => true
  | _ => false

/-- Python `issubclass(get_origin(t), collections.abc.Callable)`: a class
passes this check when its *instances* define `__call__`.  Instances of the
builtin `list`, `set` and `tuple` are not callable, so the check is `False`
for all three container origins (the class objects themselves being callable
constructors is irrelevant to `issubclass`).  The source's own TODO — pyright
deriving `Never` for `generic_origin` in that branch — records the same fact.
For non-generic types the conjunction is short-circuited by
`hasGenericOrigin`, so their value here is never consulted. -/
def originIsCallable : CType → Bool
  | CType.listStrT => false
  | CType.setStrT => false
  | CType.tupleStrT => false
  | _ => false

/-- Embeds `loading.py transform_value`: `str` and `Optional[str]` pass
through, `bool` goes through `strtobool`, and a parametrized generic whose
origin is both a `Collection` and a `Callable` subclass with args `(str,)`
would get the comma split — but since `list`, `set` and `tuple` fail the
`Callable` check, that branch is unreachable and every remaining type
(the three containers, `int`, plain classes) raises `TypeError`. -/
def transform_value (value : String) : CType → Except String Value
  | CType.strT => Except.ok (Value.str value)
  | CType.boolT => (strtobool value).map Value.int
  | CType.optStrT => Except.ok (Value.str value)
  | ty =>
    if hasGenericOrigin ty && originIsCollection ty && originIsCallable ty then
      match ty with
      | CType.listStrT => Except.ok (Value.listOfStr (comma_separated_parts value))
      | CType.setStrT => Except.ok (Value.setOfStr (comma_separated_set value))
      | CType.tupleStrT => Except.ok (Value.tupleOfStr (comma_separated_parts value))
      | _ => Except.error ("Unsupported type for config object: " ++ ctypeName ty)
    else
      Except.error ("Unsupported type for config object: " ++ ctypeName ty)

/-- The Python values `_get_env_var` compares: `os.getenv`'s result
(`None` or a string) against its local `default_keyword`, which the source
binds to the literal empty tuple `()`. -/
inductive PyAtom where
  | pynone
  | pystr (s : String)
  | emptyTuple
  deriving DecidableEq

/-- Python `==` on those values: values of different types compare unequal. -/
def pyEq : PyAtom → PyAtom → Bool
  | PyAtom.pynone, PyAtom.pynone => true
  | PyAtom.pystr a, PyAtom.pystr b => a == b
  | PyAtom.emptyTuple, PyAtom.emptyTuple => true
  | _, _ => false

/-- What `_get_env_var` returns: `None` (unset), `DefaultValue()` (the env
var held the default keyword), or the string. -/
inductive EnvVarValue where
  | unset
  | defaultValue
  | str (s : String)
  deriving DecidableEq

/-- Embeds `loading.py _get_env_var` exactly as written: it binds its local
`default_keyword` to `()` (the empty tuple, not the keyword string), and it
reads `os.getenv(var_name)` — the ambient process environment `osEnv` — while
its `env` parameter goes unused.  A string never compares equal to the empty
tuple, so the `DefaultValue()` branch is unreachable. -/
def _get_env_var (var_name : String) (env : Env) (osEnv : Env) : EnvVarValue :=
  let default_keyword : PyAtom := PyAtom.emptyTuple
  let env_var : PyAtom :=
    match alookup osEnv var_name with
    | Option.none => PyAtom.pynone
    | some s => PyAtom.pystr s
  if pyEq env_var default_keyword then
    EnvVarValue.defaultValue
  else
    match env_var with
    | PyAtom.pystr s => EnvVarValue.str s
    | _ => EnvVarValue.unset

/-- Embeds `load`'s `first_match` generator: the first lookup name whose
`_get_env_var` result is not `None`, paired with that result. -/
def first_match (lookups : List String) (env : Env) (osEnv : Env) :
    Option (String × EnvVarValue) :=
  lookups.findSome? (fun n =>
    match _get_env_var n env osEnv with
    | EnvVarValue.unset => Option.none
    | v => some (n, v))

/-- One iteration of `loading.py load`'s field loop, on the accumulated
`field_args` and `missing` lists.  A conversion error from `transform_value`
propagates immediately (the `Except String` layer); everything else updates
the accumulators.  The happy path requires a truthy `env_var_name` and a
string value, exactly as `if env_var_name and isinstance(value, str)`. -/
def load_step (env osEnv : Env) (f : Attr) (args : List (String × Value))
    (missing : List MissingErr) :
    Except String (List (String × Value) × List MissingErr) :=
  if (alookup args f.name).isSome then
    Except.ok (args, missing)
  else
    let env_lookups : List String :=
      match f.envMeta with
      | Option.none => [pyUpper f.name]
      | some Option.none => []
      | some (some l) => l
    if env_lookups.isEmpty then
      Except.ok (args, missing ++ [MissingErr.missingOther f.name])
    else
      let fm := first_match env_lookups env osEnv
      let happy : Option String :=
        match fm with
        | some (env_name, EnvVarValue.str s) =>
          if env_name = "" then Option.none else some s
        | _ => Option.none
      match happy with
      | some s =>
        match transform_value s f.type with
        | Except.ok v => Except.ok (args ++ [(f.name, v)], missing)
        | Except.error e => Except.error e
      | Option.none =>
        match f.default with
        | some d => Except.ok (args ++ [(f.name, d)], missing)
        | Option.none =>
          match f.defaultFactory with
          | some d => Except.ok (args ++ [(f.name, d)], missing)
          | Option.none =>
            let err :=
              match fm with
              | some (env_name, EnvVarValue.defaultValue) =>
                MissingErr.missingDefault f.name env_name
              | _ => MissingErr.missingVariable f.name env_lookups
            Except.ok (args, missing ++ [err])

/-- The field loop of `loading.py load`. -/
def load_go (env osEnv : Env) :
    List Attr → List (String × Value) → List MissingErr →
    Except String (List (String × Value) × List MissingErr)
  | [], args, missing => Except.ok (args, missing)
  | f :: rest, args, missing =>
    match load_step env osEnv f args missing with
    | Except.error e => Except.error e
    | Except.ok (args2, missing2) => load_go env osEnv rest args2 missing2

/-- The two ways `loading.py load` can fail: the aggregate missing-data error,
or a type/value error escaping `transform_value`. -/
inductive LoadErrA where
  | missingData (err : MissingCfgErr)
  | typeErr (msg : String)
  deriving DecidableEq

/-- Embeds `loading.py load`: `field_args = dict(other)`, loop all fields,
raise the aggregate error if anything is missing, else construct the
dataclass with exactly the accumulated field args.  `env` is the snapshot
parameter (defaulting to `os.environ` in the source); `osEnv` is the ambient
process environment that `_get_env_var` actually consults. -/
def load (cls_name : String) (cls : List Attr) (other : List (String × Value))
    (env osEnv : Env) : Except LoadErrA (List (String × Value)) :=
  match load_go env osEnv cls other [] with
  | Except.error m => Except.error (LoadErrA.typeErr m)
  | Except.ok (args, missing) =>
    if missing = [] then Except.ok args
    else Except.error (LoadErrA.missingData ⟨cls_name, missing⟩)

/-- Embeds `logging.py REDACT_WORDS`: names containing these words are
redacted by default. -/
def REDACT_WORDS : List String := ["pass", "token", "key", "cred", "secret"]

/-- Python's substring containment `w in s` on the field name. -/
def containsWord (s w : String) : Bool :=
  pyContains s w

/-- Embeds `logging.py _should_be_logged` on the field's log metadata and
name: with no explicit setting, skip (`none`) names starting with an
underscore, redact (`some false`) names whose lowercase form contains a
redact word, log (`some true`) the rest; an explicit `None` skips and an
explicit bool decides directly. -/
def _should_be_logged (logMeta : Option (Option Bool)) (name : String) :
    Option Bool :=
  match logMeta with
  | Option.none =>
    if pyStartsWith name "_" then Option.none
    else if REDACT_WORDS.any (fun w => containsWord (pyLower name) w) then
      some false
    else some true
  | some Option.none => Option.none
  | some (some b) => some b

/-- The parenthesized source suffix of a rendered line: present exactly when
the field's name is a key of the `__value_sources` dict. -/
def sourceSuffix (sources : List (String × String)) (name : String) : String :=
  match alookup sources name with
  | some s => "(" ++ s ++ ")"
  | Option.none => ""

/-- Embeds `logging.py format_values`: one line per field that is not
skipped, the value replaced by the literal `REDACTED` for redacted fields,
followed by the source suffix.  `values` is `getattr` composed with `str`:
the instance's stringified attribute values. -/
def format_values (fs : List Attr) (values : String → String)
    (sources : List (String × String)) : List String :=
  fs.filterMap (fun f =>
    match _should_be_logged f.logMeta f.name with
    | Option.none => Option.none
    | some shouldLog =>
      let value := if shouldLog then values f.name else "REDACTED"
      some (f.name ++ "=" ++ value ++ sourceSuffix sources f.name))

/-- Embeds `converters._converter_for` over
`_TYPE_TO_DEFAULT_CONVERTER`: only `int`, `list[str]`, `set[str]` and
`tuple[str]` are registered (the `bool` entry is commented out in the
source). -/
def _converter_for : CType → Option Conv
  | CType.intT => some Conv.toIntConv
  | CType.listStrT => some Conv.commaList
  | CType.setStrT => some Conv.commaSet
  | CType.tupleStrT => some Conv.commaTuple
  | _ => Option.none

/-- Embeds `_class_setup._set_up_converter`: an explicitly given converter or
a plain text type passes through; otherwise the registry is consulted, and a
missing converter is a `TypeError` unless the field's env lookups are
disabled. -/
def _set_up_converter (f : Attr) : Except String Attr :=
  if f.converter.isSome then Except.ok f
  else if f.type = CType.strT ∨ f.type = CType.optStrT then Except.ok f
  else
    match _converter_for f.type with
    | some c => Except.ok { f with converter := some c }
    | Option.none =>
      if (field_env_lookups f).isEmpty then
        Except.ok { f with converter := Option.none }
      else
        Except.error ("Attribute " ++ f.name ++ " had type " ++
          ctypeName f.type ++ ", but no converter could be found for it.")

/-- Embeds the `_class_setup._hook` field transformer, which attrs runs while
the decorated class is being defined (schema-declaration time, before any
`load` call can exist): every field goes through `_set_up_converter`, and the
first failure aborts class creation. -/
def classSetup : List Attr → Except String (List Attr)
  | [] => Except.ok []
  | f :: rest =>
    match _set_up_converter f with
    | Except.error e => Except.error e
    | Except.ok g => (classSetup rest).map (fun gs => g :: gs)

/-- Embeds the env-lookup selection of `next.py EnvFinder.get_value`: when
the metadata key is absent it computes `tuple(field.name.upper())`, which
iterates the *characters* of the uppercased name, yielding a tuple of
one-character strings; a declared `None` or empty tuple disables lookups. -/
def envFinderLookups (f : Attr) : List String :=
  match f.envMeta with
  | Option.none => (pyUpper f.name).data.map Char.toString
  | some Option.none => []
  | some (some l) => l

/-! ## Helper lemmas -/

/-- The field loop only ever appends to the collected failures, and what it
appends is exactly the per-field failures of the remaining fields. -/
theorem construct_go_missing (kw : String) (env : Env)
    (other : List (String × Value)) :
    ∀ (fs : List Attr) (st : LoaderState),
      (construct_go kw env other fs st).missing =
        st.missing ++ loadErrors kw env other fs := by
  intro fs
  induction fs with
  | nil => intro st; simp [construct_go, loadErrors]
  | cons f rest ih =>
    intro st
    cases h : _load_field kw env other f with
    | ok p =>
      simp [construct_go, h, ih, loadErrors, List.filterMap_cons]
    | error e =>
      simp [construct_go, h, ih, loadErrors, List.filterMap_cons]

/-- If every name before `n` is absent and `n` is bound to `v`, the first
entry `_all_matches` yields is `(n, v)` — regardless of the names after `n`. -/
theorem all_matches_head (env : Env) :
    ∀ (pre rest : List String) (n v : String),
      (∀ m ∈ pre, alookup env m = Option.none) → alookup env n = some v →
      (_all_matches env (pre ++ n :: rest)).head? = some (n, v) := by
  intro pre
  induction pre with
  | nil =>
    intro rest n v _ hn
    simp [_all_matches, List.filterMap_cons, hn]
  | cons m pre ih =>
    intro rest n v hpre hn
    have hm : alookup env m = Option.none := hpre m (by simp)
    simp only [List.cons_append, _all_matches, List.filterMap_cons, hm]
    exact ih rest n v (fun x hx => hpre x (by simp [hx])) hn

/-! ## Claim theorems -/

/-- C1: for every schema and environment/override pair, the loader resolves
every declared field (the collected failures are exactly the per-field
failures of all fields, in order — no short-circuit), it raises an error if
and only if at least one field failed, the raised error is the single
aggregate `MissingConfigDataError` carrying all of them, its string form
joins the per-field message of every failed field, and an instance is
constructed exactly in the no-failure case. -/
theorem c1_load_aggregates_all_failures
    (cls_name kw : String) (env : Env) (other : List (String × Value))
    (fs : List Attr) :
    (loadErrors kw env other fs = [] →
      ∃ inst, construct cls_name kw env other fs = Except.ok inst)
    ∧ (loadErrors kw env other fs ≠ [] →
      construct cls_name kw env other fs =
        Except.error ⟨cls_name, loadErrors kw env other fs⟩)
    ∧ (∀ e, construct cls_name kw env other fs = Except.error e →
      e.missing = loadErrors kw env other fs
      ∧ missingConfigMessage kw e =
          "Config for " ++ cls_name ++ " is missing data: " ++
            String.intercalate "\n"
              ((loadErrors kw env other fs).map (missingMessage kw))) := by
  have hm := construct_go_missing kw env other fs ⟨[], [], []⟩
  simp only [List.nil_append] at hm
  refine ⟨?_, ?_, ?_⟩
  · intro h
    simp only [construct, hm, h, if_pos rfl]
    exact ⟨_, rfl⟩
  · intro h
    simp only [construct, hm]
    simp [h]
  · intro e he
    simp only [construct, hm] at he
    by_cases h : loadErrors kw env other fs = []
    · simp [h] at he
    · simp [h] at he
      have hei : e = ⟨cls_name, loadErrors kw env other fs⟩ := he.symm
      subst hei
      simp [missingConfigMessage]

/-- C2: for a field whose lookup list is `pre ++ n :: rest` where every name
in `pre` is absent from the snapshot and `n` is present with value `v`
(presence is key membership — `v` may be the empty string), the resolution
outcome is entirely determined by `(n, v)`: the value branch returns `v`
itself, the default-keyword branch is decided by `v`, and the names in
`rest` are never consulted (they do not occur in the result). -/
theorem c2_first_env_match_wins
    (kw : String) (env : Env) (other : List (String × Value)) (f : Attr)
    (pre rest : List String) (n v : String)
    (hl : field_env_lookups f = pre ++ n :: rest)
    (hpre : ∀ m ∈ pre, alookup env m = Option.none)
    (hn : alookup env n = some v) :
    _load_field kw env other f =
      (if v = kw then
        (if f.default.isNone then
          Except.error (MissingErr.missingDefault f.name n)
        else
          Except.ok (Option.none,
            some ("default value (" ++ n ++ " set to " ++ v ++ ")")))
      else
        Except.ok (some (Value.str v), some ("from env var " ++ n))) := by
  have hhead := all_matches_head env pre rest n v hpre hn
  have hne : (pre ++ n :: rest).isEmpty = false := by
    cases pre <;> simp
  unfold _load_field
  rw [hl]
  simp only [hne, Bool.false_eq_true, if_false, hhead]

/-- C4: for a field whose env lookups are disabled (empty lookup list, i.e.
metadata `None` or the empty list), resolution returns exactly the override
value (with no source annotation) when the field name is a key of `other`,
fails with `MissingOther` when it is not, and never consults the
environment: the result is identical under any two snapshots. -/
theorem c4_override_only_fields
    (kw : String) (env env2 : Env) (other : List (String × Value)) (f : Attr)
    (h : field_env_lookups f = []) :
    (_load_field kw env other f =
      match alookup other f.name with
      | some v => Except.ok (some v, Option.none)
      | Option.none => Except.error (MissingErr.missingOther f.name))
    ∧ _load_field kw env other f = _load_field kw env2 other f := by
  constructor
  · unfold _load_field
    rw [h]
    simp
  · unfold _load_field
    rw [h]
    simp

/-- C5 counterexample: the claim says the empty-string raw value yields the
empty container, but `"".split(",")` is `[""]`, so the attrs converter turns
the empty string into the one-element set holding the empty string, not the
empty set; and the dataclass draft performs no set-of-text conversion at
all — `transform_value`'s `Collection`-and-`Callable` guard is unsatisfiable
for the builtin containers, so it raises `TypeError` instead of producing a
container. -/
theorem c5_empty_string_counterexample :
    comma_separated_set "" = {""}
    ∧ comma_separated_set "" ≠ (∅ : Finset String)
    ∧ transform_value "" CType.setStrT =
        Except.error "Unsupported type for config object: set[str]" := by
  refine ⟨by decide, by decide, by rfl⟩

/-- C5 amended: the attrs converter (`converters.py`, applied to
environment-sourced values of collection fields) splits the raw string on a
comma and strips whitespace from each part (membership in the resulting set
is exactly being the strip of some part); the raw value `"one, two ,three"`
yields the set containing exactly `one`, `two`, `three`; the empty-string raw
value yields the one-element container holding the empty string, not the
empty container; and the dataclass draft's `transform_value` never reaches
its comma-split branch for `list[str]`, `set[str]` or `tuple[str]` — it
raises `TypeError` for them, because those origins fail its
`issubclass(origin, Callable)` check. -/
theorem c5_collection_conversion :
    (∀ (s x : String),
      x ∈ comma_separated_set s ↔ ∃ p ∈ pySplitComma s, pyStrip p = x)
    ∧ comma_separated_set "one, two ,three" = {"one", "two", "three"}
    ∧ comma_separated_list "one, two ,three" = ["one", "two", "three"]
    ∧ comma_separated_tuple "one, two ,three" = ["one", "two", "three"]
    ∧ comma_separated_set "" = {""}
    ∧ transform_value "one, two ,three" CType.setStrT =
        Except.error "Unsupported type for config object: set[str]"
    ∧ transform_value "one, two ,three" CType.listStrT =
        Except.error "Unsupported type for config object: list[str]"
    ∧ transform_value "one, two ,three" CType.tupleStrT =
        Except.error "Unsupported type for config object: tuple[str]" := by
  refine ⟨?_, by decide, by decide, by decide, by decide, by rfl, by rfl, by rfl⟩
  intro s x
  simp [comma_separated_set, comma_separated_parts, List.mem_toFinset,
    List.mem_map]

/-- C6: with no explicit log setting, a field is skipped when its name starts
with an underscore, redacted when its lowercased name contains one of the
sensitive words, and logged otherwise; an explicit bool decides directly in
both directions (so `log=True` on a sensitive name renders the real value),
and an explicit `None` omits the field from the rendered output entirely. -/
theorem c6_log_policy (name : String) (b : Bool) :
    (pyStartsWith name "_" = true →
      _should_be_logged Option.none name = Option.none)
    ∧ (pyStartsWith name "_" = false →
      (REDACT_WORDS.any (fun w => containsWord (pyLower name) w)) = true →
      _should_be_logged Option.none name = some false)
    ∧ (pyStartsWith name "_" = false →
      (REDACT_WORDS.any (fun w => containsWord (pyLower name) w)) = false →
      _should_be_logged Option.none name = some true)
    ∧ _should_be_logged (some (some b)) name = some b
    ∧ _should_be_logged (some Option.none) name = Option.none
    ∧ (∀ (f : Attr) (values : String → String)
        (sources : List (String × String)),
      (f.logMeta = some (some true) →
        format_values [f] values sources =
          [f.name ++ "=" ++ values f.name ++ sourceSuffix sources f.name])
      ∧ (f.logMeta = some (some false) →
        format_values [f] values sources =
          [f.name ++ "=" ++ "REDACTED" ++ sourceSuffix sources f.name])
      ∧ (f.logMeta = some Option.none →
        format_values [f] values sources = [])) := by
  refine ⟨?_, ?_, ?_, rfl, rfl, ?_⟩
  · intro h
    simp [_should_be_logged, h]
  · intro h hr
    simp [_should_be_logged, h, hr]
  · intro h hr
    simp [_should_be_logged, h, hr]
  · intro f values sources
    refine ⟨?_, ?_, ?_⟩ <;> intro h <;>
      simp [format_values, _should_be_logged, h]

/-- C7 counterexample: the claim says lines have the form
`name=value_repr (source_description)` with a space before the parenthesized
source, but `format_values` yields the f-string
`f.name=value` directly followed by `(source)` with no separating space. -/
theorem c7_no_space_counterexample :
    format_values [{ name := "foo" }] (fun _ => "hello")
        [("foo", "from env var FOO")] =
      ["foo=hello(from env var FOO)"]
    ∧ format_values [{ name := "foo" }] (fun _ => "hello")
        [("foo", "from env var FOO")] ≠
      ["foo=hello (from env var FOO)"] := by
  refine ⟨by decide, by decide⟩

/-- C7 amended: audit rendering emits one line per non-skipped field of the
form `name=value_repr(source_description)` — no space before the
parenthesized source — with the literal `REDACTED` replacing the value for
redacted fields while the source is still shown, and the source descriptions
produced by resolution are exactly `from env var {name}`,
`default value; {n} was not set` for one lookup name,
`default value; none of {n1}, {n2} were set` for several, and
`default value ({name} set to {keyword})` for the default keyword. -/
theorem c7_audit_rendering :
    (∀ (f : Attr) (values : String → String)
        (sources : List (String × String)) (s : String),
      _should_be_logged f.logMeta f.name = some true →
      alookup sources f.name = some s →
      format_values [f] values sources =
        [f.name ++ "=" ++ values f.name ++ "(" ++ s ++ ")"])
    ∧ (∀ (f : Attr) (values : String → String)
        (sources : List (String × String)) (s : String),
      _should_be_logged f.logMeta f.name = some false →
      alookup sources f.name = some s →
      format_values [f] values sources =
        [f.name ++ "=" ++ "REDACTED" ++ "(" ++ s ++ ")"])
    ∧ (∀ (f : Attr) (values : String → String)
        (sources : List (String × String)),
      _should_be_logged f.logMeta f.name = Option.none →
      format_values [f] values sources = [])
    ∧ (∀ (kw : String) (env : Env) (other : List (String × Value))
        (f : Attr) (n v : String),
      field_env_lookups f = [n] → alookup env n = some v → v ≠ kw →
      _load_field kw env other f =
        Except.ok (some (Value.str v), some ("from env var " ++ n)))
    ∧ (∀ (kw : String) (env : Env) (other : List (String × Value))
        (f : Attr) (n : String) (d : Value),
      field_env_lookups f = [n] → alookup env n = Option.none →
      f.default = some d →
      _load_field kw env other f =
        Except.ok (Option.none,
          some ("default value; " ++ n ++ " was not set")))
    ∧ (∀ (kw : String) (env : Env) (other : List (String × Value))
        (f : Attr) (n1 n2 : String) (d : Value),
      field_env_lookups f = [n1, n2] → alookup env n1 = Option.none →
      alookup env n2 = Option.none → f.default = some d →
      _load_field kw env other f =
        Except.ok (Option.none,
          some ("default value; none of " ++ n1 ++ ", " ++ n2 ++ " were set")))
    ∧ (∀ (env : Env) (other : List (String × Value))
        (kw : String) (f : Attr) (n : String) (d : Value),
      field_env_lookups f = [n] → alookup env n = some kw →
      f.default = some d →
      _load_field kw env other f =
        Except.ok (Option.none,
          some ("default value (" ++ n ++ " set to " ++ kw ++ ")"))) := by
  refine ⟨?_, ?_, ?_, ?_, ?_, ?_, ?_⟩
  · intro f values sources s h hs
    simp [format_values, h, sourceSuffix, hs, ← String.append_assoc]
  · intro f values sources s h hs
    simp [format_values, h, sourceSuffix, hs, ← String.append_assoc]
  · intro f values sources h
    simp [format_values, h]
  · intro kw env other f n v hl hn hv
    unfold _load_field
    rw [hl]
    simp [_all_matches, List.filterMap_cons, hn, hv]
  · intro kw env other f n d hl hn hd
    unfold _load_field
    rw [hl]
    simp [_all_matches, List.filterMap_cons, hn, hd, defaultUnsetSource]
  · intro kw env other f n1 n2 d hl h1 h2 hd
    unfold _load_field
    rw [hl]
    simp [_all_matches, List.filterMap_cons, h1, h2, hd, defaultUnsetSource,
      String.intercalate, String.intercalate.go, String.append_assoc]
  · intro env other kw f n d hl hn hd
    unfold _load_field
    rw [hl]
    simp [_all_matches, List.filterMap_cons, hn, hd]

/-- C8: a field with no explicit converter whose declared type is neither
text nor optional-text and has no registered converter, but whose env
lookups are non-empty, makes `_set_up_converter` raise the unsupported-type
`TypeError`; since that runs inside the attrs field transformer while the
class is being declared, any schema containing such a field fails class
setup — before any `load` call can exist — and the error is a `TypeError`
(the `Except String` channel), not a `MissingDataError`, so it can never be
folded into the aggregate `MissingConfigDataError`. -/
theorem c8_unsupported_type_fails_at_declaration
    (f : Attr)
    (hconv : f.converter = Option.none)
    (hstr : f.type ≠ CType.strT) (hopt : f.type ≠ CType.optStrT)
    (hreg : _converter_for f.type = Option.none)
    (hlookups : field_env_lookups f ≠ []) :
    _set_up_converter f =
      Except.error ("Attribute " ++ f.name ++ " had type " ++
        ctypeName f.type ++ ", but no converter could be found for it.")
    ∧ ∀ (pre post : List Attr) (res : List Attr),
        classSetup (pre ++ f :: post) ≠ Except.ok res := by
  have hempty : (field_env_lookups f).isEmpty = false := by
    cases h : field_env_lookups f with
    | nil => exact absurd h hlookups
    | cons a l => simp
  have hset : _set_up_converter f =
      Except.error ("Attribute " ++ f.name ++ " had type " ++
        ctypeName f.type ++ ", but no converter could be found for it.") := by
    unfold _set_up_converter
    rw [hconv]
    simp [hstr, hopt, hreg, hempty]
  refine ⟨hset, ?_⟩
  intro pre
  induction pre with
  | nil =>
    intro post res
    simp [classSetup, hset]
  | cons g pre ih =>
    intro post res
    simp only [List.cons_append, classSetup]
    cases hg : _set_up_converter g with
    | error e => simp
    | ok g2 =>
      simp only []
      cases hrest : classSetup (pre ++ f :: post) with
      | error e => simp [Except.map]
      | ok gs => exact absurd hrest (by intro h; exact ih post gs h)

/-- C3: the claim holds for the attrs draft (`_load_field` fails with
`MissingDefault` when the matched variable holds the keyword and the field
has no default, and returns the default with the default-keyword provenance
when it has one), but `loading.py` contradicts it and its own docstring:
`_get_env_var` binds its local `default_keyword` to the empty tuple `()`
instead of the keyword string, so a variable set to `"default"` resolves to
the literal string `"default"` instead of triggering the default/
`MissingDefault` path. -/
theorem c3_default_keyword_dead_in_dataclass_draft :
    load "Cfg" [{ name := "speed", envMeta := some (some ["SPEED"]) }] []
        [("SPEED", "default")] [("SPEED", "default")] =
      Except.ok [("speed", Value.str "default")]
    ∧ _load_field "default" [("SPEED", "default")] []
        { name := "speed", envMeta := some (some ["SPEED"]) } =
      Except.error (MissingErr.missingDefault "speed" "SPEED")
    ∧ _load_field "default" [("SPEED", "default")] []
        { name := "speed", envMeta := some (some ["SPEED"]),
          default := some (Value.str "10") } =
      Except.ok (Option.none, some "default value (SPEED set to default)") := by
  refine ⟨by rfl, by rfl, by rfl⟩

/-- C9: `loading.py load` does not read the passed environment snapshot:
`_get_env_var` ignores its `env` parameter and calls `os.getenv`.  With the
snapshot bound to `FOO=hello` but the process environment empty, a required
field `foo` fails; with the same snapshot and the process environment
holding `FOO=goodbye`, it resolves to `goodbye` — equal snapshots, different
outcomes.  The attrs draft (`_load_field`) honors the snapshot. -/
theorem c9_process_environment_leaks_into_load :
    load "Cfg" [{ name := "foo" }] [] [("FOO", "hello")] [] =
      Except.error (LoadErrA.missingData
        ⟨"Cfg", [MissingErr.missingVariable "foo" ["FOO"]]⟩)
    ∧ load "Cfg" [{ name := "foo" }] [] [] [("FOO", "hello")] =
      Except.ok [("foo", Value.str "hello")]
    ∧ load "Cfg" [{ name := "foo" }] [] [("FOO", "hello")] [("FOO", "goodbye")] =
      Except.ok [("foo", Value.str "goodbye")]
    ∧ _load_field "default" [("FOO", "hello")] [] { name := "foo" } =
      Except.ok (some (Value.str "hello"), some "from env var FOO") := by
  refine ⟨by rfl, by rfl, by rfl, by rfl⟩

/-- C10: with no env-lookups metadata, `field_env_lookups` (and the
dataclass draft's `load`) probe exactly the field name uppercased, and
declaring the metadata as `None` or the empty list disables lookups; but
`next.py EnvFinder.get_value` computes `tuple(field.name.upper())`, which
iterates the characters of the uppercased name, so a field named `foo`
probes the three variables `F`, `O`, `O` instead of `FOO`. -/
theorem c10_envfinder_iterates_name_characters :
    field_env_lookups { name := "foo" } = ["FOO"]
    ∧ envFinderLookups { name := "foo" } = ["F", "O", "O"]
    ∧ envFinderLookups { name := "foo" } ≠ ["FOO"]
    ∧ field_env_lookups { name := "foo", envMeta := some Option.none } = []
    ∧ field_env_lookups { name := "foo", envMeta := some (some []) } = []
    ∧ envFinderLookups { name := "foo", envMeta := some Option.none } = []
    ∧ load "Cfg" [{ name := "foo" }] [] [] [("FOO", "x")] =
        Except.ok [("foo", Value.str "x")] := by
  refine ⟨by rfl, by rfl, by decide, by rfl, by rfl, by rfl, by rfl⟩

/-! ## Witnesses -/

/-- Witness for C1: a schema with two required fields `a` and `b` and an
empty environment raises the single aggregate error naming both. -/
theorem c1_load_aggregates_all_failures_witness :
    loadErrors "default" [] [] [{ name := "a" }, { name := "b" }] =
      [MissingErr.missingVariable "a" ["A"],
        MissingErr.missingVariable "b" ["B"]]
    ∧ construct "Cfg" "default" [] [] [{ name := "a" }, { name := "b" }] =
      Except.error ⟨"Cfg", [MissingErr.missingVariable "a" ["A"],
        MissingErr.missingVariable "b" ["B"]]⟩
    ∧ missingConfigMessage "default"
        ⟨"Cfg", [MissingErr.missingVariable "a" ["A"],
          MissingErr.missingVariable "b" ["B"]]⟩ =
      "Config for Cfg is missing data: " ++
        "a was not found in env var A\nb was not found in env var B" :=
  ⟨by rfl,
    by
      have h := (c1_load_aggregates_all_failures "Cfg" "default" [] []
        [{ name := "a" }, { name := "b" }]).2.1 (by decide)
      exact h.trans (by rfl),
    by rfl⟩

/-- Witness for C2: with lookups `[A, B, C]`, `A` unset, `B` set to the empty
string and `C` set to `zzz`, resolution returns the empty string from `B`
and never consults `C`. -/
theorem c2_first_env_match_wins_witness :
    alookup [("B", ""), ("C", "zzz")] "A" = Option.none
    ∧ alookup [("B", ""), ("C", "zzz")] "B" = some ""
    ∧ _load_field "default" [("B", ""), ("C", "zzz")] []
        { name := "x", envMeta := some (some ["A", "B", "C"]) } =
      Except.ok (some (Value.str ""), some "from env var B") :=
  ⟨by rfl, by rfl,
    by
      have h := c2_first_env_match_wins "default" [("B", ""), ("C", "zzz")] []
        { name := "x", envMeta := some (some ["A", "B", "C"]) }
        ["A"] ["C"] "B" "" (by rfl) (by decide) (by rfl)
      exact h.trans (by rfl)⟩

/-- Witness for C4: a field with lookups disabled takes exactly the override
value when present and fails with `MissingOther` when absent, with the
environment never consulted. -/
theorem c4_override_only_fields_witness :
    field_env_lookups { name := "kube_client", envMeta := some Option.none } = []
    ∧ _load_field "default" [("KUBE_CLIENT", "x")]
        [("kube_client", Value.obj "client")]
        { name := "kube_client", envMeta := some Option.none } =
      Except.ok (some (Value.obj "client"), Option.none)
    ∧ _load_field "default" [("KUBE_CLIENT", "x")] []
        { name := "kube_client", envMeta := some Option.none } =
      Except.error (MissingErr.missingOther "kube_client") :=
  ⟨by rfl,
    by
      have h := (c4_override_only_fields "default" [("KUBE_CLIENT", "x")] []
        [("kube_client", Value.obj "client")]
        { name := "kube_client", envMeta := some Option.none } (by rfl)).1
      exact h.trans (by rfl),
    by
      have h := (c4_override_only_fields "default" [("KUBE_CLIENT", "x")] [] []
        { name := "kube_client", envMeta := some Option.none } (by rfl)).1
      exact h.trans (by rfl)⟩

/-- Witness for C6: `api_token` is redacted by default, and an explicit
`log=True` renders its real value. -/
theorem c6_log_policy_witness :
    pyStartsWith "api_token" "_" = false
    ∧ REDACT_WORDS.any (fun w => containsWord (pyLower "api_token") w) = true
    ∧ _should_be_logged Option.none "api_token" = some false
    ∧ _should_be_logged (some (some true)) "api_token" = some true
    ∧ format_values [{ name := "api_token", logMeta := some (some true) }]
        (fun _ => "tok") [] = ["api_token=tok"] :=
  ⟨by rfl, by decide,
    (c6_log_policy "api_token" true).2.1 (by rfl) (by decide),
    (c6_log_policy "api_token" true).2.2.2.1,
    by
      have h := ((c6_log_policy "api_token" true).2.2.2.2.2
        { name := "api_token", logMeta := some (some true) }
        (fun _ => "tok") []).1 (by rfl)
      exact h.trans (by rfl)⟩

/-- Witness for C7 (amended): a logged env-sourced field renders
`foo=hello(from env var FOO)`, a redacted one keeps its source, and the
default-unset source string is produced by resolution. -/
theorem c7_audit_rendering_witness :
    _should_be_logged Option.none "api_token" = some false
    ∧ format_values [{ name := "foo", logMeta := some (some true) }]
        (fun _ => "hello") [("foo", "from env var FOO")] =
      ["foo=hello(from env var FOO)"]
    ∧ format_values [{ name := "api_token" }] (fun _ => "tok")
        [("api_token", "from env var API_TOKEN")] =
      ["api_token=REDACTED(from env var API_TOKEN)"]
    ∧ _load_field "default" [] []
        { name := "bar", default := some (Value.str "d") } =
      Except.ok (Option.none, some "default value; BAR was not set") :=
  ⟨by rfl,
    by
      have h := c7_audit_rendering.1
        { name := "foo", logMeta := some (some true) } (fun _ => "hello")
        [("foo", "from env var FOO")] "from env var FOO" (by rfl) (by rfl)
      exact h.trans (by rfl),
    by
      have h := c7_audit_rendering.2.1
        { name := "api_token" } (fun _ => "tok")
        [("api_token", "from env var API_TOKEN")] "from env var API_TOKEN"
        (by decide) (by rfl)
      exact h.trans (by rfl),
    by
      have h := c7_audit_rendering.2.2.2.2.1 "default" [] []
        { name := "bar", default := some (Value.str "d") } "BAR"
        (Value.str "d") (by rfl) (by rfl) (by rfl)
      exact h.trans (by rfl)⟩

/-- Witness for C8: a field of an opaque client type with default env
lookups fails converter setup, and a schema containing it cannot be set
up. -/
theorem c8_unsupported_type_fails_at_declaration_witness :
    _set_up_converter { name := "client", type := CType.otherT "ApiClient" } =
      Except.error
        "Attribute client had type ApiClient, but no converter could be found for it."
    ∧ classSetup [{ name := "foo" },
        { name := "client", type := CType.otherT "ApiClient" }] ≠
      Except.ok [{ name := "foo" },
        { name := "client", type := CType.otherT "ApiClient" }] :=
  ⟨by
      have h := (c8_unsupported_type_fails_at_declaration
        { name := "client", type := CType.otherT "ApiClient" }
        (by rfl) (by decide) (by decide) (by rfl) (by decide)).1
      exact h.trans (by rfl),
    by
      exact (c8_unsupported_type_fails_at_declaration
        { name := "client", type := CType.otherT "ApiClient" }
        (by rfl) (by decide) (by decide) (by rfl) (by decide)).2
        [{ name := "foo" }] []
        [{ name := "foo" }, { name := "client", type := CType.otherT "ApiClient" }]⟩

end Pelorus
